import Mathlib

/-!
Shallow embedding of the California childcare fraud-analysis scripts.

Sources embedded:
* `ca_childcare_analysis.py` — `detect_fraud_indicators` (address/licensee
  normalization, the four scored indicators DUPLICATE_ADDRESS,
  HIGH_VOLUME_LICENSEE, COVID_ERA_LICENSE, SHORT_LIVED, the `fraud_score`
  and `fraud_flags` accumulation, and the `high_risk` filter), and
  `analyze_low_capacity_facilities` together with the tuple unpacking done
  by the `__main__` block.
* `fraud_deep_analysis.py` — `analyze_duplicate_phones` (the `phone_clean`
  key and the `flag_shared_phone` indicator), `extract_person_name`, and the
  `months_operated` computation shared with `generate_investigation_report`.

Pandas missing values (`NaN` / `NaT`) are modelled as `none`; a pandas
timestamp is modelled by the projections the scripts actually read from it
(`.dt.year` and the day count used by `.dt.days`).
-/

/-- A parsed pandas timestamp, reduced to the two projections the scripts
read: the calendar year (`.dt.year`) and a day number such that subtracting
two timestamps and taking `.dt.days` gives the difference of the day
numbers. -/
structure PDate where
  year : Int
  epochDay : Int
deriving DecidableEq, Repr

/-- One row of the combined facility table. A field that is pandas-missing
(`NaN`, `NaT`, absent) is `none`. `facility_capacity` is kept as the value
before the `fillna(0)` coercion; `license_first_date` and `closed_date` are
the `pd.to_datetime(..., errors='coerce')` results, `none` when parsing
failed or the field was empty. -/
structure FacilityRecord where
  facility_address : Option String
  facility_city : Option String
  licensee : Option String
  facility_status : Option String
  facility_telephone_number : Option String
  facility_capacity : Option Int
  license_first_date : Option PDate
  closed_date : Option PDate
deriving DecidableEq, Repr

/-- Python `str.upper` over the ASCII text fields of the registry. -/
def pyUpper (s : String) : String := String.mk (s.data.map Char.toUpper)

/-- Python `str.strip`: drop leading and trailing whitespace. -/
def pyStrip (s : String) : String :=
  String.mk (((s.data.dropWhile Char.isWhitespace).reverse.dropWhile
    Char.isWhitespace).reverse)

/-- Worker for `collapseWS`: the flag records whether the previous character
already emitted a space for the current whitespace run. -/
def collapseWSAux : Bool → List Char → List Char
  | _, [] => []
  | prevWS, c :: cs =>
    if c.isWhitespace then
      if prevWS then collapseWSAux true cs else ' ' :: collapseWSAux true cs
    else c :: collapseWSAux false cs

/-- The regex substitution `\s+` → `' '`: every maximal run of whitespace
becomes a single space. -/
def collapseWS (s : String) : String := String.mk (collapseWSAux false s.data)

/-- The regex substitutions `\.` → `''` and `,` → `''`: drop every period
and comma. -/
def stripPeriodsCommas (s : String) : String :=
  String.mk (s.data.filter (fun c => !(c == '.' || c == ',')))

/-- `df['address_normalized']` of `detect_fraud_indicators`: uppercase,
strip, collapse whitespace runs, drop periods and commas; `NaN` propagates. -/
def address_normalized (r : FacilityRecord) : Option String :=
  r.facility_address.map (fun a => stripPeriodsCommas (collapseWS (pyStrip (pyUpper a))))

/-- `df['full_address'] = df['address_normalized'] + ', ' + city.upper().strip()`.
In pandas, string concatenation with a missing operand is missing, so the
key is `none` as soon as either the address or the city is `NaN`. -/
def full_address (r : FacilityRecord) : Option String :=
  match address_normalized r, r.facility_city with
  | some a, some c => some (a ++ ", " ++ pyStrip (pyUpper c))
  | _, _ => none

/-- `df['licensee_normalized'] = df['licensee'].str.upper().str.strip()`. -/
def licensee_normalized (r : FacilityRecord) : Option String :=
  r.licensee.map (fun s => pyStrip (pyUpper s))

/-- `df['facility_status'].str.upper()` (no strip in the source). -/
def statusUpper (r : FacilityRecord) : Option String :=
  r.facility_status.map pyUpper

/-- `df['phone_clean']` of `analyze_duplicate_phones`: keep only digits;
an empty digit string (including the `astype(str)` image `'nan'` of a
missing phone) is replaced by `NaN`. -/
def phone_clean (r : FacilityRecord) : Option String :=
  match r.facility_telephone_number with
  | none => none
  | some s =>
    let d := String.mk (s.data.filter Char.isDigit)
    if d = "" then none else some d

/-- `months_operated` in integer tenths of a month. Both scripts compute
`((closed_date - license_first_date).dt.days / 30).round(1)`; with an
integer day count the rounded value in tenths is `round(days / 3)`, and
since a multiple of one third is never exactly halfway between integers
this equals `⌊(days + 1) / 3⌋` for every sign of `days`. `none` models the
pandas `NaN` produced when either date is missing. Note the source applies
no guard: a closure before the start yields a negative value, not `NaN`. -/
def months_operated_tenths (r : FacilityRecord) : Option Int :=
  match r.license_first_date, r.closed_date with
  | some s, some c => some (Int.fdiv (c.epochDay - s.epochDay + 1) 3)
  | _, _ => none

/-- FLAG 1 of `detect_fraud_indicators`: the record's `full_address` occurs
more than once in the run (`value_counts` drops `NaN`, and a `NaN` key is
never `isin` a count index). -/
def dupAddrB (rs : List FacilityRecord) (r : FacilityRecord) : Bool :=
  match full_address r with
  | some fa => decide (1 < rs.countP (fun x => full_address x == some fa))
  | none => false

/-- FLAG 2 of `detect_fraud_indicators`: the record's normalized licensee
operates 5 or more facilities in the run. -/
def highVolB (rs : List FacilityRecord) (r : FacilityRecord) : Bool :=
  match licensee_normalized r with
  | some l => decide (5 ≤ rs.countP (fun x => licensee_normalized x == some l))
  | none => false

/-- FLAG 3 of `detect_fraud_indicators`: license year between 2020 and 2022
(a missing or unparseable date fails the comparison in pandas). -/
def covidEraB (r : FacilityRecord) : Bool :=
  match r.license_first_date with
  | some d => decide (2020 ≤ d.year ∧ d.year ≤ 2022)
  | none => false

/-- FLAG 4 of `detect_fraud_indicators`: member of the `short_lived` frame,
i.e. status upper-cases to `CLOSED`, license year at least 2020, and the
computed `months_operated` is below 24 months (240 tenths). A missing
`months_operated` fails the `< 24` comparison; a negative one passes it. -/
def shortLivedB (r : FacilityRecord) : Bool :=
  (statusUpper r == some "CLOSED") &&
  (match r.license_first_date with
   | some d => decide (2020 ≤ d.year)
   | none => false) &&
  (match months_operated_tenths r with
   | some t => decide (t < 240)
   | none => false)

/-- A row of the scored frame produced by `detect_fraud_indicators`: the
input record, its accumulated `fraud_score`, and its `fraud_flags` (the
source stores the flags as a `'; '`-joined string; the list holds the
labels in the order they are appended). -/
structure ScoredRecord where
  record : FacilityRecord
  fraud_score : Nat
  fraud_flags : List String
deriving DecidableEq, Repr

/-- The per-record scoring of `detect_fraud_indicators`, in source order:
`fraud_score` starts at 0 and `fraud_flags` empty, then the four flag
blocks add 2, 1, 1 and 2 points and append their labels. -/
def scoreRecord (rs : List FacilityRecord) (r : FacilityRecord) : ScoredRecord :=
  let s1 : Nat := if dupAddrB rs r then 0 + 2 else 0
  let f1 : List String := if dupAddrB rs r then [] ++ ["DUPLICATE_ADDRESS"] else []
  let s2 := if highVolB rs r then s1 + 1 else s1
  let f2 := if highVolB rs r then f1 ++ ["HIGH_VOLUME_LICENSEE"] else f1
  let s3 := if covidEraB r then s2 + 1 else s2
  let f3 := if covidEraB r then f2 ++ ["COVID_ERA_LICENSE"] else f2
  let s4 := if shortLivedB r then s3 + 2 else s3
  let f4 := if shortLivedB r then f3 ++ ["SHORT_LIVED"] else f3
  ⟨r, s4, f4⟩

/-- `detect_fraud_indicators`: every input row scored against the whole
run, preserving input order (pandas keeps the row order of `df`). -/
def detect_fraud_indicators (rs : List FacilityRecord) : List ScoredRecord :=
  rs.map (scoreRecord rs)

/-- `high_risk = df[df['fraud_score'] >= 3].copy()` — a plain boolean-mask
filter on the scored frame; the source applies no sort to it. -/
def high_risk (rs : List FacilityRecord) : List ScoredRecord :=
  (detect_fraud_indicators rs).filter (fun s => decide (3 ≤ s.fraud_score))

/-- One row of the fixed indicator table implemented by
`detect_fraud_indicators`: label, weight, and trigger condition. -/
structure Indicator where
  label : String
  weight : Nat
  trig : List FacilityRecord → FacilityRecord → Bool

/-- The four indicators of `detect_fraud_indicators`, in the order the
source evaluates them (which is also the order of the specification's
indicator table restricted to these four). -/
def indicatorTable : List Indicator :=
  [⟨"DUPLICATE_ADDRESS", 2, dupAddrB⟩,
   ⟨"HIGH_VOLUME_LICENSEE", 1, highVolB⟩,
   ⟨"COVID_ERA_LICENSE", 1, fun _ r => covidEraB r⟩,
   ⟨"SHORT_LIVED", 2, fun _ r => shortLivedB r⟩]

/-- `valid_phones` of `analyze_duplicate_phones`: the multiset of cleaned
phone keys of length at least 10, one occurrence per row. -/
def valid_phones (rs : List FacilityRecord) : List String :=
  rs.filterMap (fun x =>
    match phone_clean x with
    | some d => if 10 ≤ d.length then some d else none
    | none => none)

/-- `df['flag_shared_phone'] = df['phone_clean'].isin(suspicious_phones.index)`
where `suspicious_phones = phone_counts[phone_counts >= 3]` over the valid
phones: the record's cleaned phone is used by at least 3 rows. A short or
missing phone key never appears in the count index. -/
def flag_shared_phone (rs : List FacilityRecord) (r : FacilityRecord) : Bool :=
  match phone_clean r with
  | some d => decide (3 ≤ (valid_phones rs).count d)
  | none => false

/-- The business suffixes stripped by `extract_person_name`, in source
order (each `str.replace` removes every occurrence of its suffix). -/
def business_suffixes : List String :=
  [" LLC", " INC", " INC.", " CORP", " CORPORATION", " L.L.C.", " L.L.C"]

/-- Sequential application of the `str.replace(suffix, '')` loop of
`extract_person_name`. -/
def strip_business_suffixes (s : String) : String :=
  business_suffixes.foldl (fun acc suf => acc.replace suf "") s

/-- Python `str.split()` with no argument: split on whitespace runs and
drop empty pieces. -/
def splitTokens (s : String) : List String :=
  (s.split Char.isWhitespace).filter (fun t => t != "")

/-- `extract_person_name` of `analyze_licensee_patterns`
(`fraud_deep_analysis.py` lines 125-137): `None` for a pandas-missing
licensee (`pd.isna` guard), otherwise uppercase, strip the business
suffixes, and return the stripped remainder exactly when it contains a
comma or has at most three whitespace tokens. The function is total: every
operation on the string branch is a plain string operation. -/
def extract_person_name (licensee : Option String) : Option String :=
  match licensee with
  | none => none
  | some s =>
    let t := strip_business_suffixes (pyUpper s)
    if t.contains ',' || decide ((splitTokens t).length ≤ 3) then some (pyStrip t)
    else none

/-- The value `analyze_low_capacity_facilities` returns: the early exits
(lines 74-76 and 89-92 of `ca_childcare_analysis.py`) return a single
DataFrame, while the normal path (line 187) returns the pair
`(low_capacity, combined)`. -/
inductive LowCapReturn where
  | single (df : List FacilityRecord)
  | pair (low : List FacilityRecord) (all : List FacilityRecord)
deriving DecidableEq, Repr

/-- The capacity after `pd.to_numeric(..., errors='coerce').fillna(0)`:
a missing or unparseable capacity becomes 0. -/
def capInt (r : FacilityRecord) : Int := r.facility_capacity.getD 0

/-- `analyze_low_capacity_facilities`, with its downloads abstracted to a
list of per-source record lists (an empty list models a failed or empty
download, which the loop skips). When nothing was downloaded the source
prints a warning and returns a single empty DataFrame; otherwise it
concatenates the sources and returns the low-capacity filter plus the
combined frame. -/
def analyze_low_capacity_facilities (sources : List (List FacilityRecord))
    (capacity_threshold : Int) : LowCapReturn :=
  let all_facilities := sources.filter (fun df => !df.isEmpty)
  if all_facilities.isEmpty then .single []
  else
    let combined := all_facilities.foldr (· ++ ·) []
    let low_capacity := combined.filter
      (fun r => decide (0 < capInt r) && decide (capInt r < capacity_threshold))
    .pair low_capacity combined

/-- The tuple unpacking `low_cap_results, all_facilities = analyze_low_capacity_facilities(...)`
in the `__main__` block (line 401). Unpacking a DataFrame iterates over its
column labels; the single empty DataFrame returned on the empty-input path
has zero columns, so Python raises
`ValueError: not enough values to unpack (expected 2, got 0)`. -/
def unpackTwo : LowCapReturn → Except String (List FacilityRecord × List FacilityRecord)
  | .pair a b => .ok (a, b)
  | .single _ => .error "ValueError: not enough values to unpack (expected 2, got 0)"

/-- A record with every field missing; it triggers no indicator. -/
def wRec : FacilityRecord := ⟨none, none, none, none, none, none, none, none⟩

/-- Witness record for the months_operated theorems: licensed at day 0 of
2021 and closed 150 days later, so months_operated is 5.0 (50 tenths). -/
def wC1rec : FacilityRecord :=
  ⟨none, none, none, none, none, none, some ⟨2021, 0⟩, some ⟨2021, 150⟩⟩

/-- Counterexample record for C1: the closure date (day 0 of 2020) is 1000
days before the license-start date (day 1000 of 2021), as happens on a data
entry error; the source still computes months_operated = -33.3. -/
def cexC1rec : FacilityRecord :=
  ⟨none, none, none, none, none, none, some ⟨2021, 1000⟩, some ⟨2020, 0⟩⟩

/-- C1 as claimed: months_operated is null unless both dates are present
and the closure is on or after the start, and a present value is
non-negative. -/
def c1ClaimProp (r : FacilityRecord) : Prop :=
  (months_operated_tenths r ≠ none →
    ∃ s c, r.license_first_date = some s ∧ r.closed_date = some c ∧
      s.epochDay ≤ c.epochDay) ∧
  ∀ t, months_operated_tenths r = some t → 0 ≤ t

/-- First counterexample record for C2: a ten-digit phone shared with
`c2p2`, at address `1 A ST, FRESNO`. -/
def c2p1 : FacilityRecord :=
  ⟨some "1 A ST", some "FRESNO", none, none, some "111-222-3330", none, none, none⟩

/-- Second counterexample record for C2: the same ten-digit phone as
`c2p1`, at the different address `2 B ST, FRESNO`. -/
def c2p2 : FacilityRecord :=
  ⟨some "2 B ST", some "FRESNO", none, none, some "111-222-3330", none, none, none⟩

/-- The two-record, two-address, one-phone input for the C2 counterexample. -/
def c2cex : List FacilityRecord := [c2p1, c2p2]

/-- C2 as claimed: the SHARED_PHONE indicator triggers exactly when the
record's phone key is shared by a group spanning at least 2 distinct
normalized addresses, or having at least 3 members at one address. This is
the trigger condition the claim asserts (only its positive part is needed
for the counterexample). -/
def c2ClaimTrigger (rs : List FacilityRecord) (r : FacilityRecord) : Prop :=
  ∃ d, phone_clean r = some d ∧ 10 ≤ d.length ∧
    (2 ≤ ((rs.filter (fun x => phone_clean x == some d)).filterMap
        full_address).dedup.length ∨
      ∃ a, 3 ≤ (rs.filter (fun x => phone_clean x == some d)).countP
        (fun x => full_address x == some a))

/-- First record of the C4 counterexample input: shares its address with
`c4r2` and is COVID-era licensed, so it scores 2 + 1 = 3. -/
def c4r1 : FacilityRecord :=
  ⟨some "1 A ST", some "FRESNO", some "OP X", some "LICENSED", none, none,
    some ⟨2021, 0⟩, none⟩

/-- Second record of the C4 counterexample input: same address as `c4r1`,
COVID-era licensed, closed after 150 days, so it scores 2 + 1 + 2 = 5. -/
def c4r2 : FacilityRecord :=
  ⟨some "1 A ST", some "FRESNO", some "OP Y", some "CLOSED", none, none,
    some ⟨2021, 0⟩, some ⟨2021, 150⟩⟩

/-- The C4 counterexample input: the lower-scoring record comes first, so
an unsorted filter emits scores [3, 5]. -/
def c4cex : List FacilityRecord := [c4r1, c4r2]

/-- The pairwise order C4 claims for the high-risk tier: score strictly
descending, ties broken by license-start date descending (a missing date is
compared as day 0; the counterexample below involves no tie, so nothing
depends on that choice). -/
def c4ClaimOrder (a b : ScoredRecord) : Prop :=
  b.fraud_score < a.fraud_score ∨
    (b.fraud_score = a.fraud_score ∧
      (b.record.license_first_date.map PDate.epochDay).getD 0 ≤
        (a.record.license_first_date.map PDate.epochDay).getD 0)

instance : DecidableRel c4ClaimOrder := fun a b => by
  unfold c4ClaimOrder
  infer_instance

/-- Counterexample record for C8: the address is missing and the city is
present, so pandas propagates NaN into `full_address`. -/
def c8rec : FacilityRecord :=
  ⟨none, some "Fresno", none, none, none, none, none, none⟩

/-- C8 as claimed: when exactly one of address and city is missing, the
combined key contains only the other field, normalized. -/
def c8ClaimProp (r : FacilityRecord) : Prop :=
  (r.facility_address = none → ∀ c, r.facility_city = some c →
    full_address r = some (pyStrip (pyUpper c))) ∧
  (r.facility_city = none → ∀ a, r.facility_address = some a →
    full_address r = some (stripPeriodsCommas (collapseWS (pyStrip (pyUpper a)))))

lemma scoreRecord_record (rs : List FacilityRecord) (r : FacilityRecord) :
    (scoreRecord rs r).record = r := rfl

lemma scoreRecord_score_eq (rs : List FacilityRecord) (r : FacilityRecord) :
    (scoreRecord rs r).fraud_score =
      (if dupAddrB rs r then 2 else 0) + (if highVolB rs r then 1 else 0) +
        (if covidEraB r then 1 else 0) + (if shortLivedB r then 2 else 0) := by
  simp only [scoreRecord]
  cases dupAddrB rs r <;> cases highVolB rs r <;> cases covidEraB r <;>
    cases shortLivedB r <;> simp

lemma scoreRecord_flags_eq (rs : List FacilityRecord) (r : FacilityRecord) :
    (scoreRecord rs r).fraud_flags =
      (indicatorTable.filter (fun i => i.trig rs r)).map Indicator.label := by
  simp only [scoreRecord, indicatorTable]
  cases h1 : dupAddrB rs r <;> cases h2 : highVolB rs r <;> cases h3 : covidEraB r <;>
    cases h4 : shortLivedB r <;> simp [List.filter, h1, h2, h3, h4]

lemma scoreRecord_flags_nodup (rs : List FacilityRecord) (r : FacilityRecord) :
    (scoreRecord rs r).fraud_flags.Nodup := by
  rw [scoreRecord_flags_eq]
  have h1 : List.Sublist ((indicatorTable.filter (fun i => i.trig rs r)).map Indicator.label)
      (indicatorTable.map Indicator.label) := (List.filter_sublist _).map _
  have h2 : (indicatorTable.map Indicator.label).Nodup := by decide
  exact h2.sublist h1

/-- C1, corrected. The source computes `months_operated` whenever both the
license-start and closure dates parse, with no order guard: the value is
null exactly when a date is missing, and it is non-negative whenever the
closure is on or after the start (a closure sufficiently before the start
yields a negative value, shown separately by the counterexample). -/
theorem ca_c1_amended :
    (∀ r : FacilityRecord, (months_operated_tenths r).isSome ↔
      (r.license_first_date.isSome ∧ r.closed_date.isSome)) ∧
    (∀ (r : FacilityRecord) (s c : PDate), r.license_first_date = some s →
      r.closed_date = some c → s.epochDay ≤ c.epochDay →
      ∀ t, months_operated_tenths r = some t → 0 ≤ t) := by
  constructor
  · intro r
    rcases hs : r.license_first_date with _ | s <;>
      rcases hc : r.closed_date with _ | c <;>
        simp [months_operated_tenths, hs, hc]
  · intro r s c hs hc hle t ht
    rw [months_operated_tenths, hs, hc] at ht
    have hv : Int.fdiv (c.epochDay - s.epochDay + 1) 3 = t := by
      exact Option.some.inj ht
    rw [← hv]
    exact Int.fdiv_nonneg (by omega) (by norm_num)

/-- Witness for `ca_c1_amended`: a record licensed on day 0 and closed on
day 150 has a present months_operated (50 tenths, i.e. 5.0 months), and the
theorem yields its non-negativity. -/
theorem ca_c1_witness : (months_operated_tenths wC1rec).isSome ∧ (0 : Int) ≤ 50 := by
  refine ⟨(ca_c1_amended.1 wC1rec).mpr (by decide), ?_⟩
  exact ca_c1_amended.2 wC1rec ⟨2021, 0⟩ ⟨2021, 150⟩ rfl rfl (by decide) 50 (by decide)

/-- Counterexample to C1 as stated: on `cexC1rec` (closure 1000 days before
the license start) the source computes months_operated = -33.3, a present
negative value, while the claim demands null. -/
theorem ca_c1_counterexample : ¬ c1ClaimProp cexC1rec := by
  intro h
  have h0 := h.2 (-333) (by decide)
  exact absurd h0 (by decide)

/-- C3, a code bug. On an empty input set (every download empty or failed)
`analyze_low_capacity_facilities` takes its early-return path and hands a
single empty DataFrame to a caller that unpacks two values, so the run
raises ValueError instead of completing with empty tiers. -/
theorem ca_c3_bug :
    unpackTwo (analyze_low_capacity_facilities [[], []] 14) =
      Except.error "ValueError: not enough values to unpack (expected 2, got 0)" := rfl

/-- C8, corrected. The combined address key is present exactly when both
the address and the city are present: a missing field does not shrink the
key to the other field, it makes the whole key missing (the normalization
itself never raises — the embedding is a total function). -/
theorem ca_c8_amended (r : FacilityRecord) :
    (full_address r).isSome ↔ (r.facility_address.isSome ∧ r.facility_city.isSome) := by
  rcases ha : r.facility_address with _ | a <;>
    rcases hc : r.facility_city with _ | c <;>
      simp [full_address, address_normalized, ha, hc]

/-- Counterexample to C8 as stated: for a record with the address missing
and city `Fresno`, the claim demands the key `FRESNO`, but the source
propagates the missing address into a missing key. -/
theorem ca_c8_counterexample : ¬ c8ClaimProp c8rec := by
  intro h
  exact absurd (h.1 rfl "Fresno" rfl) (by decide)

/-- C9, confirmed. The scoring pipeline is a pure function of the input
snapshot: two runs on equal record sets produce equal scored-record sets
and equal high-risk tier orderings. -/
theorem ca_c9 (rs₁ rs₂ : List FacilityRecord) (h : rs₁ = rs₂) :
    detect_fraud_indicators rs₁ = detect_fraud_indicators rs₂ ∧
      high_risk rs₁ = high_risk rs₂ := by
  subst h
  exact ⟨rfl, rfl⟩

/-- Witness for `ca_c9` at the concrete one-record snapshot `[wRec]`. -/
theorem ca_c9_witness :
    detect_fraud_indicators [wRec] = detect_fraud_indicators [wRec] ∧
      high_risk [wRec] = high_risk [wRec] :=
  ca_c9 [wRec] [wRec] rfl

/-- C5, confirmed. Every scored record's `fraud_score` is the sum of the
weights of exactly the triggered indicators (each contributing once), and
its `fraud_flags` are the labels of the triggered indicators in the fixed
table order, without duplicates. -/
theorem ca_c5 (rs : List FacilityRecord) (s : ScoredRecord)
    (hs : s ∈ detect_fraud_indicators rs) :
    s.fraud_score =
      (indicatorTable.map (fun i => if i.trig rs s.record then i.weight else 0)).sum ∧
    s.fraud_flags =
      (indicatorTable.filter (fun i => i.trig rs s.record)).map Indicator.label ∧
    s.fraud_flags.Nodup := by
  rcases List.mem_map.mp hs with ⟨r, _, rfl⟩
  rw [scoreRecord_record]
  refine ⟨?_, scoreRecord_flags_eq rs r, scoreRecord_flags_nodup rs r⟩
  rw [scoreRecord_score_eq]
  simp only [indicatorTable, List.map_cons, List.map_nil, List.sum_cons, List.sum_nil]
  simp [Nat.add_assoc]

/-- Witness for `ca_c5` at the one-record snapshot `[wRec]`, whose record
triggers no indicator. -/
theorem ca_c5_witness :
    scoreRecord [wRec] wRec ∈ detect_fraud_indicators [wRec] ∧
    ((scoreRecord [wRec] wRec).fraud_score =
        (indicatorTable.map (fun i =>
          if i.trig [wRec] (scoreRecord [wRec] wRec).record then i.weight else 0)).sum ∧
      (scoreRecord [wRec] wRec).fraud_flags =
        (indicatorTable.filter (fun i =>
          i.trig [wRec] (scoreRecord [wRec] wRec).record)).map Indicator.label ∧
      (scoreRecord [wRec] wRec).fraud_flags.Nodup) := by
  have hm : scoreRecord [wRec] wRec ∈ detect_fraud_indicators [wRec] := by
    simp [detect_fraud_indicators]
  exact ⟨hm, ca_c5 [wRec] _ hm⟩

/-- C6, confirmed. SHORT_LIVED triggers exactly when the status upper-cases
to CLOSED, the license-start year is at least 2020, and the computed
months_operated (in tenths of a month, possibly negative) is present and
below 240 tenths = 24 months; it contributes exactly +2 on top of the other
indicator contributions. -/
theorem ca_c6 (rs : List FacilityRecord) (r : FacilityRecord) :
    (shortLivedB r = true ↔
      (statusUpper r = some "CLOSED" ∧
        (∃ d, r.license_first_date = some d ∧ 2020 ≤ d.year) ∧
        (∃ t, months_operated_tenths r = some t ∧ t < 240))) ∧
    (scoreRecord rs r).fraud_score =
      (if dupAddrB rs r then 2 else 0) + (if highVolB rs r then 1 else 0) +
        (if covidEraB r then 1 else 0) + (if shortLivedB r then 2 else 0) := by
  refine ⟨?_, scoreRecord_score_eq rs r⟩
  simp only [shortLivedB, Bool.and_eq_true, beq_iff_eq]
  rcases hd : r.license_first_date with _ | d <;>
    rcases hm : months_operated_tenths r with _ | t <;>
      simp [hd, hm, and_assoc]

/-- C7, confirmed. COVID_ERA_LICENSE triggers exactly when the license
start year is one of 2020, 2021, 2022 (the source tests 2020 ≤ year ≤
2022), and it contributes exactly +1 on top of the other indicator
contributions. -/
theorem ca_c7 (rs : List FacilityRecord) (r : FacilityRecord) :
    (covidEraB r = true ↔
      (∃ d, r.license_first_date = some d ∧
        (d.year = 2020 ∨ d.year = 2021 ∨ d.year = 2022))) ∧
    (scoreRecord rs r).fraud_score =
      (if dupAddrB rs r then 2 else 0) + (if highVolB rs r then 1 else 0) +
        (if covidEraB r then 1 else 0) + (if shortLivedB r then 2 else 0) := by
  refine ⟨?_, scoreRecord_score_eq rs r⟩
  rcases hd : r.license_first_date with _ | d <;> simp [covidEraB, hd]
  omega

lemma length_of_mem_valid_phones {rs : List FacilityRecord} {d : String}
    (h : d ∈ valid_phones rs) : 10 ≤ d.length := by
  induction rs with
  | nil => simp [valid_phones] at h
  | cons r tl ih =>
    simp only [valid_phones, List.filterMap_cons] at h ih
    rcases hp : phone_clean r with _ | e
    · simp only [hp] at h
      exact ih h
    · simp only [hp] at h
      by_cases hl : 10 ≤ e.length
      · rw [if_pos hl] at h
        rcases List.mem_cons.mp h with rfl | h2
        · exact hl
        · exact ih h2
      · rw [if_neg hl] at h
        exact ih h

lemma count_valid_phones (rs : List FacilityRecord) {d : String} (hd : 10 ≤ d.length) :
    (valid_phones rs).count d = rs.countP (fun x => phone_clean x == some d) := by
  induction rs with
  | nil => rfl
  | cons r tl ih =>
    simp only [valid_phones] at ih
    rcases hp : phone_clean r with _ | e
    · simp [valid_phones, List.filterMap_cons, List.countP_cons, hp, ih]
    · by_cases he : e = d
      · subst he
        simp [valid_phones, List.filterMap_cons, List.countP_cons, hp, if_pos hd,
          List.count_cons, ih]
      · by_cases hl : 10 ≤ e.length
        · simp [valid_phones, List.filterMap_cons, List.countP_cons, hp, if_pos hl,
            List.count_cons, he, ih]
        · simp [valid_phones, List.filterMap_cons, List.countP_cons, hp, if_neg hl,
            he, ih]

/-- C2, corrected. The scored SHARED_PHONE indicator
(`flag_shared_phone` of `analyze_duplicate_phones`) triggers exactly when
the record's cleaned phone key has at least 10 digits and is shared by at
least 3 records of the run, with no condition on addresses. In particular
two records sharing one phone key never trigger it — whether their
addresses differ or not — and three records at one address do. -/
theorem ca_c2_amended (rs : List FacilityRecord) (r : FacilityRecord) :
    flag_shared_phone rs r = true ↔
      ∃ d, phone_clean r = some d ∧ 10 ≤ d.length ∧
        3 ≤ rs.countP (fun x => phone_clean x == some d) := by
  rcases hp : phone_clean r with _ | d
  · simp [flag_shared_phone, hp]
  · simp only [flag_shared_phone, hp, decide_eq_true_eq]
    constructor
    · intro h3
      have hpos : 0 < (valid_phones rs).count d := by omega
      have hd : 10 ≤ d.length :=
        length_of_mem_valid_phones (List.count_pos_iff.mp hpos)
      refine ⟨d, rfl, hd, ?_⟩
      rw [← count_valid_phones rs hd]
      exact h3
    · rintro ⟨e, he, hlen, hcount⟩
      have hde : e = d := (Option.some.inj he).symm
      subst hde
      rw [count_valid_phones rs hlen]
      exact hcount

/-- Counterexample to C2 as stated: in `c2cex`, two records share one valid
phone key at two distinct normalized addresses — the claim's trigger
condition holds — yet the source does not set `flag_shared_phone`, because
the phone is used by fewer than 3 rows. -/
theorem ca_c2_counterexample :
    c2ClaimTrigger c2cex c2p1 ∧ flag_shared_phone c2cex c2p1 = false :=
  ⟨⟨"1112223330", by decide, by decide, Or.inl (by decide)⟩, by decide⟩

/-- C4, corrected. The high-risk tier is the plain filter of the scored
records at the default threshold 3: it contains exactly the scored records
with `fraud_score ≥ 3` and preserves their input order (it is a sublist of
the scored set); the source applies no score-descending sort and no
license-date tie-break. -/
theorem ca_c4_amended (rs : List FacilityRecord) :
    (∀ s, s ∈ high_risk rs ↔ (s ∈ detect_fraud_indicators rs ∧ 3 ≤ s.fraud_score)) ∧
    List.Sublist (high_risk rs) (detect_fraud_indicators rs) := by
  constructor
  · intro s
    simp [high_risk, List.mem_filter]
  · exact List.filter_sublist _

/-- Counterexample to C4 as stated: on `c4cex` the high-risk tier comes out
in input order with scores [3, 5], which is not ordered by score descending
(so in particular not ordered by score descending with a license-date
tie-break). -/
theorem ca_c4_counterexample : ¬ List.Sorted c4ClaimOrder (high_risk c4cex) := by
  decide

/-- C10, confirmed. `extract_person_name` is total at its interface: a
pandas-missing licensee yields `None` via the `pd.isna` guard, and on every
string it returns (the embedding is a total function), with a present
result exactly when the suffix-stripped uppercased string looks person-like
(contains a comma or has at most three whitespace tokens). -/
theorem ca_c10 :
    extract_person_name none = none ∧
    ∀ s, ((extract_person_name (some s)).isSome ↔
      ((strip_business_suffixes (pyUpper s)).contains ',' = true ∨
        (splitTokens (strip_business_suffixes (pyUpper s))).length ≤ 3)) := by
  refine ⟨rfl, fun s => ?_⟩
  simp only [extract_person_name, Bool.or_eq_true, decide_eq_true_eq]
  split
  · next h => simp only [Option.isSome_some, true_iff]; exact h
  · next h => simp only [Option.isSome_none, Bool.false_eq_true, false_iff]; exact h
